import Mathlib

/-
Shallow embedding of the todo-list data-access layer (src/src/main.rs):
a bb8-postgres pool manager singleton and a single-entity repository with
upsert persistence.  Uuid values are modelled as naturals, UTC timestamps
as integers at backend precision, and the todo table as a list of typed
rows; the SQL statements issued by the repository are modelled by their
Postgres semantics on that list.  Connection acquisition from the pool is
assumed to succeed in the table operations: the ConnectionError path is
orthogonal to every property stated below except those about pool
construction, where the external driver responses are explicit inputs.
-/

set_option autoImplicit false

namespace TodoApp

/-- Priority of a todo item, mirroring the Rust enum PriorityLevel mapped
to the Postgres enum type priority_level. -/
inductive PriorityLevel
  | Low
  | Medium
  | High
deriving DecidableEq, Repr

/-- The task entity, field for field the Rust struct Todo. -/
structure Todo where
  id : Nat
  task : String
  priority : PriorityLevel
  created_at : Int
  expired_at : Option Int
  completed_at : Option Int
deriving DecidableEq, Repr

/-- A SQL cell value as returned by the backend for the columns of the
todo table: null, a uuid, text, a priority_level, or a timestamptz. -/
inductive SqlValue
  | null
  | uuid (v : Nat)
  | text (s : String)
  | prio (p : PriorityLevel)
  | timestamptz (t : Int)
deriving DecidableEq, Repr

/-- A result row: association list from column name to cell value,
modelling tokio_postgres Row accessed by column name. -/
abbrev Row : Type := List (String × SqlValue)

/-- Per-field row-mapping failures of row.try_get, each naming the
offending column, as the tokio_postgres errors do. -/
inductive MapError
  | columnNotFound (col : String)
  | unexpectedNull (col : String)
  | wrongType (col : String)
deriving DecidableEq, Repr

/-- The kinds of tokio_postgres errors the claims distinguish: the
query_one row-count error (zero or several rows), a row-to-entity
conversion error, and a pool-construction error. -/
inductive PgErrorKind
  | rowCount (n : Nat)
  | mapping (e : MapError)
  | poolBuild
deriving DecidableEq, Repr

/-- The crate error enum of src/src/main.rs: ConnectionError wraps a pool
check-out failure, PostgresError wraps a driver-level failure. -/
inductive Error
  | ConnectionError
  | PostgresError (kind : PgErrorKind)
deriving DecidableEq, Repr

/-- Observable outcome of running a piece of the Rust code: a normal
return, an Err return, or a process panic. -/
inductive Outcome (α : Type)
  | ok (a : α)
  | err (e : Error)
  | panicked (msg : String)
deriving DecidableEq, Repr

/-- Look up a column of a row by name (first match), as tokio_postgres
column access by name does. -/
def Row.findCol (row : Row) (col : String) : Option SqlValue :=
  (row.find? (fun c => c.1 == col)).map (fun c => c.2)

/-- row.try_get for a non-nullable uuid column. -/
def tryGetUuid (row : Row) (col : String) : Except MapError Nat :=
  match row.findCol col with
  | none => .error (.columnNotFound col)
  | some .null => .error (.unexpectedNull col)
  | some (.uuid v) => .ok v
  | some _ => .error (.wrongType col)

/-- row.try_get for a non-nullable text column. -/
def tryGetText (row : Row) (col : String) : Except MapError String :=
  match row.findCol col with
  | none => .error (.columnNotFound col)
  | some .null => .error (.unexpectedNull col)
  | some (.text s) => .ok s
  | some _ => .error (.wrongType col)

/-- row.try_get for a non-nullable priority_level column. -/
def tryGetPrio (row : Row) (col : String) : Except MapError PriorityLevel :=
  match row.findCol col with
  | none => .error (.columnNotFound col)
  | some .null => .error (.unexpectedNull col)
  | some (.prio p) => .ok p
  | some _ => .error (.wrongType col)

/-- row.try_get for a non-nullable timestamptz column. -/
def tryGetTs (row : Row) (col : String) : Except MapError Int :=
  match row.findCol col with
  | none => .error (.columnNotFound col)
  | some .null => .error (.unexpectedNull col)
  | some (.timestamptz t) => .ok t
  | some _ => .error (.wrongType col)

/-- row.try_get for a nullable timestamptz column (an Option field in the
entity): null decodes to none. -/
def tryGetOptTs (row : Row) (col : String) : Except MapError (Option Int) :=
  match row.findCol col with
  | none => .error (.columnNotFound col)
  | some .null => .ok none
  | some (.timestamptz t) => .ok (some t)
  | some _ => .error (.wrongType col)

/-- The snafu context applied in the TryFrom impl: every conversion
failure is wrapped as PostgresError. -/
def ctxPg (e : MapError) : Error :=
  .PostgresError (.mapping e)

/-- The impl TryFrom of Row for Todo: each column is read by its alias
and converted, in the order of the source, failing on the first bad
field. -/
def Todo.tryFrom (row : Row) : Except Error Todo := do
  let id ← (tryGetUuid row "todo_id").mapError ctxPg
  let task ← (tryGetText row "todo_task").mapError ctxPg
  let created_at ← (tryGetTs row "todo_created_at").mapError ctxPg
  let expired_at ← (tryGetOptTs row "todo_expired_at").mapError ctxPg
  let completed_at ← (tryGetOptTs row "todo_completed_at").mapError ctxPg
  let priority ← (tryGetPrio row "todo_priority").mapError ctxPg
  return ⟨id, task, priority, created_at, expired_at, completed_at⟩

/-- A durable row of the todo table, with the schema column types. -/
structure DbRow where
  id : Nat
  task : String
  priority : PriorityLevel
  created_at : Int
  expired_at : Option Int
  completed_at : Option Int
deriving DecidableEq, Repr

/-- Encoding of a nullable timestamptz column value. -/
def optTs : Option Int → SqlValue
  | none => .null
  | some t => .timestamptz t

/-- The result row produced for a table row by the select statements of
get_all and get_by_id, with their column aliases. -/
def DbRow.toRow (r : DbRow) : Row :=
  [("todo_id", .uuid r.id),
   ("todo_task", .text r.task),
   ("todo_priority", .prio r.priority),
   ("todo_created_at", .timestamptz r.created_at),
   ("todo_expired_at", optTs r.expired_at),
   ("todo_completed_at", optTs r.completed_at)]

/-- The table row holding the six field values of an entity, as bound to
the six parameters of the insert statement in Todo::save. -/
def Todo.toDbRow (t : Todo) : DbRow :=
  ⟨t.id, t.task, t.priority, t.created_at, t.expired_at, t.completed_at⟩

/-- Panic message of the Result unwrap in Todo::get_all. -/
def unwrapErrMsg : String := "called Result unwrap on an Err value"

/-- Panic message of the Option unwrap in DBManager::get. -/
def unwrapNoneMsg : String := "called Option unwrap on a None value"

/-- Panic message of the expect in DBManager::new. -/
def expectMsg : String := "unable build PostgresConnectionManager"

/-- DBManager::query_one via tokio_postgres query_one: returns the row if
the statement yielded exactly one, otherwise the driver row-count error
wrapped as PostgresError (the NotFoundOrAmbiguous failure of the spec). -/
def query_one (rows : List Row) : Except Error Row :=
  match rows with
  | [r] => .ok r
  | rs => .error (.PostgresError (.rowCount rs.length))

/-- Todo::get_all applied to the rows the backend returned for the
unfiltered select: each row is converted with try_from followed by
unwrap, so the first failing row panics the process. -/
def Todo.get_all (rows : List Row) : Outcome (List Todo) :=
  match rows with
  | [] => .ok []
  | r :: rs =>
    match Todo.tryFrom r with
    | .error _ => .panicked unwrapErrMsg
    | .ok t =>
      match Todo.get_all rs with
      | .ok ts => .ok (t :: ts)
      | o => o

/-- Rows produced by the select of Todo::get_by_id: the table filtered by
identifier equality, each row under the column aliases. -/
def selectById (table : List DbRow) (id : Nat) : List Row :=
  (table.filter (fun r => r.id == id)).map DbRow.toRow

/-- Todo::get_by_id against a table state: filtered select through
query_one, then the TryFrom conversion. -/
def Todo.get_by_id (table : List DbRow) (id : Nat) : Except Error Todo := do
  let row ← query_one (selectById table id)
  Todo.tryFrom row

/-- Postgres semantics of the statement insert into todo ... ON CONFLICT
(id) DO UPDATE SET of Todo::save: when a row with the identifier exists,
every one of its fields is replaced by the excluded values; otherwise the
new row is inserted. -/
def upsert (table : List DbRow) (r : DbRow) : List DbRow :=
  if table.any (fun x => x.id == r.id) then
    table.map (fun x => if x.id == r.id then r else x)
  else
    table ++ [r]

/-- Todo::save: runs the upsert statement with the six in-memory field
values and returns Ok(self). -/
def Todo.save (t : Todo) (table : List DbRow) : List DbRow × Except Error Todo :=
  (upsert table t.toDbRow, .ok t)

/-- Todo::delete: runs delete from todo where id equals the identifier
and returns Ok(self); a zero-row delete is not an error. -/
def Todo.delete (t : Todo) (table : List DbRow) : List DbRow × Except Error Todo :=
  (table.filter (fun x => x.id != t.id), .ok t)

/-- Todo::toggle_complete: pure local mutation; now is the current UTC
instant supplied by the clock.  A present completion timestamp is cleared,
an absent one is set to now. -/
def Todo.toggle_complete (t : Todo) (now : Int) : Todo :=
  { t with completed_at :=
      match t.completed_at with
      | some _ => none
      | none => some now }

/-- DBOptions of the source: connection parameters and pool size. -/
structure DBOptions where
  pg_params : String
  pool_max_size : Nat

/-- DBManager holds the pool; the live pool handle is abstracted to a
tag. -/
structure DBManager where
  pool : Nat
deriving DecidableEq, Repr

/-- DBManager::new: new_from_stringlike under expect (a parse failure of
the connection parameters panics), then the pool builder, whose failure
is returned as PostgresError.  parse_ok and build_ok are the responses of
the external driver and backend for this configuration. -/
def DBManager.new (_config : DBOptions) (parse_ok : Bool) (build_ok : Bool) :
    Outcome DBManager :=
  if parse_ok then
    if build_ok then .ok ⟨0⟩
    else .err (.PostgresError .poolBuild)
  else .panicked expectMsg

/-- DBManager::get: reads the once cell DB_MANAGER_INSTANCE and unwraps;
cell is none before initialization, some after a completed set. -/
def DBManager.get (cell : Option DBManager) : Outcome DBManager :=
  match cell with
  | none => .panicked unwrapNoneMsg
  | some m => .ok m

/-- Identifier uniqueness invariant of the todo table: id is the unique
key required by the ON CONFLICT (id) clause. -/
def IdUnique (table : List DbRow) : Prop :=
  (table.map DbRow.id).Nodup

/-- A well-formed result row, used as a concrete input. -/
def goodRow : Row := DbRow.toRow ⟨1, "a", .Low, 0, none, none⟩

/-- A malformed result row: only the id column is present, so converting
it fails at column todo_task. -/
def badRow : Row := [("todo_id", .uuid 2)]

/-- Converting the select output of a table row recovers the entity whose
six field values the row holds. -/
theorem tryFrom_toRow (t : Todo) :
    Todo.tryFrom (DbRow.toRow (Todo.toDbRow t)) = .ok t := by
  cases t with
  | mk id task priority created_at expired_at completed_at =>
    cases expired_at <;> cases completed_at <;> rfl

/-- query_one on a result set that does not hold exactly one row fails
with the driver row-count error. -/
theorem query_one_not_single (rows : List Row) (h : rows.length ≠ 1) :
    query_one rows = .error (.PostgresError (.rowCount rows.length)) := by
  match rows with
  | [] => rfl
  | [r] => exact absurd rfl h
  | r1 :: r2 :: rest => rfl

/-- Every row of the upserted table carrying the conflicting identifier
is the excluded row itself: no field survives the overwrite. -/
theorem eq_of_mem_upsert {table : List DbRow} {r x : DbRow}
    (hx : x ∈ upsert table r) (hid : x.id = r.id) : x = r := by
  unfold upsert at hx
  by_cases hany : table.any (fun y => y.id == r.id) = true
  · rw [if_pos hany] at hx
    obtain ⟨y, hy, hfy⟩ := List.mem_map.mp hx
    by_cases hyid : y.id = r.id
    · rw [if_pos (by simpa using hyid)] at hfy
      exact hfy.symm
    · rw [if_neg (by simpa using hyid)] at hfy
      exact absurd (hfy ▸ hid) hyid
  · rw [if_neg hany] at hx
    rcases List.mem_append.mp hx with h | h
    · exact absurd (List.any_eq_true.mpr ⟨x, h, by simpa using hid⟩) hany
    · simpa using h

/-- The upserted table holds a row with the conflicting identifier. -/
theorem upsert_mem_exists (table : List DbRow) (r : DbRow) :
    ∃ x ∈ upsert table r, x.id = r.id := by
  unfold upsert
  by_cases hany : table.any (fun y => y.id == r.id) = true
  · rw [if_pos hany]
    obtain ⟨y, hy, hyid⟩ := List.any_eq_true.mp hany
    exact ⟨r, List.mem_map.mpr ⟨y, hy, by simp [hyid]⟩, rfl⟩
  · rw [if_neg hany]
    exact ⟨r, by simp, rfl⟩

/-- Under the identifier uniqueness invariant, filtering the upserted
table by the conflicting identifier yields exactly the excluded row. -/
theorem filter_upsert_self (r : DbRow) :
    ∀ table : List DbRow, IdUnique table →
      (upsert table r).filter (fun x => x.id == r.id) = [r] := by
  intro table
  induction table with
  | nil =>
    intro _
    simp [upsert]
  | cons a tl ih =>
    intro h
    rw [IdUnique, List.map_cons, List.nodup_cons] at h
    obtain ⟨hna, hntl⟩ := h
    have htl : ∀ x ∈ tl, ¬ x.id = a.id := by
      intro x hx hxa
      exact hna (hxa ▸ List.mem_map_of_mem DbRow.id hx)
    by_cases ha : a.id = r.id
    · have hany : (a :: tl).any (fun x => x.id == r.id) = true := by
        simp [List.any_cons, ha]
      have hmapf : tl.map (fun x => if x.id == r.id then r else x) = tl := by
        conv_rhs => rw [← List.map_id tl]
        apply List.map_congr_left
        intro x hx
        have hne : ¬ x.id = r.id := fun hxr => htl x hx (hxr.trans ha.symm)
        simp [hne]
      have hfil : tl.filter (fun x => x.id == r.id) = [] := by
        rw [List.filter_eq_nil_iff]
        intro x hx
        have hne : ¬ x.id = r.id := fun hxr => htl x hx (hxr.trans ha.symm)
        simpa using hne
      rw [upsert, if_pos hany, List.map_cons, hmapf,
        if_pos (by simpa using ha), List.filter_cons_of_pos (by simp), hfil]
    · have hpa : (a.id == r.id) = false := by simpa using ha
      by_cases hany : tl.any (fun x => x.id == r.id) = true
      · have h1 : upsert (a :: tl) r =
            a :: tl.map (fun x => if x.id == r.id then r else x) := by
          rw [upsert, if_pos (by simp [List.any_cons, hpa, hany]),
            List.map_cons, if_neg (by simpa using ha)]
        have h2 : upsert tl r =
            tl.map (fun x => if x.id == r.id then r else x) := by
          rw [upsert, if_pos hany]
        rw [h1, List.filter_cons_of_neg (by simp [ha]), ← h2, ih hntl]
      · have hanyb : tl.any (fun x => x.id == r.id) = false :=
          Bool.not_eq_true _ ▸ hany
        have h1 : upsert (a :: tl) r = a :: (tl ++ [r]) := by
          rw [upsert, if_neg (by simp [List.any_cons, hpa, hanyb])]
          rfl
        have h2 : upsert tl r = tl ++ [r] := by
          rw [upsert, if_neg hany]
        rw [h1, List.filter_cons_of_neg (by simp [ha]), ← h2, ih hntl]

/-- Filtering by a different identifier ignores the replacement map of
the upsert. -/
theorem filter_ne_map_replace (r : DbRow) :
    ∀ l : List DbRow,
      (l.map (fun x => if x.id == r.id then r else x)).filter
          (fun x => x.id != r.id) =
        l.filter (fun x => x.id != r.id)
  | [] => rfl
  | a :: l => by
    rw [List.map_cons]
    by_cases ha : a.id = r.id
    · rw [if_pos (by simpa using ha),
        List.filter_cons_of_neg (by simp),
        List.filter_cons_of_neg (by simp [ha]),
        filter_ne_map_replace r l]
    · rw [if_neg (by simpa using ha),
        List.filter_cons_of_pos (by simpa using ha),
        List.filter_cons_of_pos (by simpa using ha),
        filter_ne_map_replace r l]

/-- The rows of the table carrying other identifiers are untouched by
the upsert. -/
theorem upsert_filter_ne (table : List DbRow) (r : DbRow) :
    (upsert table r).filter (fun x => x.id != r.id) =
      table.filter (fun x => x.id != r.id) := by
  unfold upsert
  by_cases hany : table.any (fun y => y.id == r.id) = true
  · rw [if_pos hany]
    exact filter_ne_map_replace r table
  · rw [if_neg hany, List.filter_append]
    simp

/-- A table already holding the excluded row at the conflicting
identifier, and only it there, is unchanged by the upsert. -/
theorem upsert_eq_self {l : List DbRow} {r : DbRow}
    (h1 : ∀ x ∈ l, x.id = r.id → x = r) (h2 : ∃ x ∈ l, x.id = r.id) :
    upsert l r = l := by
  obtain ⟨x, hx, hxid⟩ := h2
  have hany : l.any (fun y => y.id == r.id) = true :=
    List.any_eq_true.mpr ⟨x, hx, by simpa using hxid⟩
  unfold upsert
  rw [if_pos hany]
  conv_rhs => rw [← List.map_id l]
  apply List.map_congr_left
  intro y hy
  by_cases hyid : y.id = r.id
  · simp [hyid, h1 y hy hyid]
  · simp [hyid]

/-- Deleting by an identifier leaves no row carrying it, so a further
select by that identifier filters to nothing. -/
theorem filter_of_delete (l : List DbRow) (i : Nat) :
    (l.filter (fun x => x.id != i)).filter (fun x => x.id == i) = [] := by
  rw [List.filter_eq_nil_iff]
  intro a ha
  have hne := (List.mem_filter.mp ha).2
  simp only [bne_iff_ne, ne_eq] at hne
  simpa using hne

/-- Upserting into a table none of whose rows carries the conflicting
identifier appends the excluded row. -/
theorem upsert_of_not_mem {l : List DbRow} {r : DbRow}
    (h : ∀ x ∈ l, ¬ x.id = r.id) : upsert l r = l ++ [r] := by
  have hany : ¬ l.any (fun y => y.id == r.id) = true := by
    rw [List.any_eq_true]
    rintro ⟨x, hx, hxid⟩
    exact h x hx (by simpa using hxid)
  unfold upsert
  rw [if_neg hany]

/-- C1 (amended): when converting any single returned row to a Todo
fails, Todo::get_all does not return a MappingError value: the unwrap in
its row-mapping closure panics the process, so no list, partial or
otherwise, and no error value is returned. -/
theorem C1_get_all_panics_on_bad_row (rows : List Row)
    (h : ∃ r ∈ rows, (Todo.tryFrom r).isOk = false) :
    Todo.get_all rows = .panicked unwrapErrMsg := by
  induction rows with
  | nil => simp at h
  | cons r rs ih =>
    obtain ⟨x, hx, hxf⟩ := h
    rcases List.mem_cons.mp hx with hhead | htail
    · subst hhead
      cases hfr : Todo.tryFrom x with
      | error e =>
        unfold Todo.get_all
        rw [hfr]
      | ok t =>
        rw [hfr] at hxf
        exact Bool.noConfusion hxf
    · have htailpanic : Todo.get_all rs = .panicked unwrapErrMsg :=
        ih ⟨x, htail, hxf⟩
      cases hfr : Todo.tryFrom r with
      | error e =>
        unfold Todo.get_all
        rw [hfr]
      | ok t =>
        unfold Todo.get_all
        rw [hfr, htailpanic]

/-- Witness for C1 at a concrete malformed result set. -/
theorem C1_get_all_panics_on_bad_row_witness :
    Todo.get_all [badRow] = .panicked unwrapErrMsg :=
  C1_get_all_panics_on_bad_row [badRow] ⟨badRow, by simp, by rfl⟩

/-- Counterexample to C1 as stated: a result set whose second row lacks
the task column.  Converting that row fails naming the offending column,
yet Todo::get_all panics instead of returning the MappingError, because
the mapping closure unwraps the conversion result. -/
theorem C1_get_all_counterexample :
    Todo.tryFrom badRow =
      .error (.PostgresError (.mapping (.columnNotFound "todo_task"))) ∧
    Todo.get_all [goodRow, badRow] = .panicked unwrapErrMsg :=
  ⟨rfl, rfl⟩

/-- C2: whenever the select filtered by identifier equality yields a
number of rows other than one, Todo::get_by_id fails with the row-count
error of query_one (the NotFoundOrAmbiguous failure of the spec). -/
theorem C2_get_by_id_not_single_row (table : List DbRow) (id : Nat)
    (h : (selectById table id).length ≠ 1) :
    Todo.get_by_id table id =
      .error (.PostgresError (.rowCount (selectById table id).length)) := by
  unfold Todo.get_by_id
  rw [query_one_not_single _ h]
  rfl

/-- Witness for C2 on the empty table, where the select yields zero
rows. -/
theorem C2_get_by_id_not_single_row_witness :
    Todo.get_by_id [] 0 = .error (.PostgresError (.rowCount 0)) :=
  C2_get_by_id_not_single_row [] 0 (by decide)

/-- C3: Todo::save upserts keyed by the identifier: afterwards every row
carrying the identifier holds exactly the six in-memory field values (no
partial-field update), some row carries it, rows with other identifiers
are untouched, and when no prior row carried it the new row is
inserted. -/
theorem C3_save_upsert_semantics (t : Todo) (table : List DbRow) :
    (∀ r ∈ (Todo.save t table).1, r.id = t.id →
        r.task = t.task ∧ r.priority = t.priority ∧
        r.created_at = t.created_at ∧ r.expired_at = t.expired_at ∧
        r.completed_at = t.completed_at) ∧
    (∃ r ∈ (Todo.save t table).1, r.id = t.id) ∧
    ((Todo.save t table).1.filter (fun r => r.id != t.id) =
        table.filter (fun r => r.id != t.id)) ∧
    ((∀ r ∈ table, ¬ r.id = t.id) →
        (Todo.save t table).1 = table ++ [Todo.toDbRow t]) := by
  refine ⟨?_, ?_, ?_, ?_⟩
  · intro r hr hid
    have hr' : r = Todo.toDbRow t := eq_of_mem_upsert hr hid
    subst hr'
    exact ⟨rfl, rfl, rfl, rfl, rfl⟩
  · exact upsert_mem_exists table (Todo.toDbRow t)
  · exact upsert_filter_ne table (Todo.toDbRow t)
  · intro hno
    exact upsert_of_not_mem hno

/-- C4: saving a task into a table satisfying the identifier uniqueness
invariant and reading it back by its identifier succeeds and returns a
value equal to the task in every field. -/
theorem C4_save_get_round_trip (t : Todo) (table : List DbRow)
    (h : IdUnique table) :
    Todo.get_by_id (Todo.save t table).1 t.id = .ok t := by
  have hfil : (Todo.save t table).1.filter (fun r => r.id == t.id) =
      [Todo.toDbRow t] :=
    filter_upsert_self t.toDbRow table h
  have hsel : selectById (Todo.save t table).1 t.id =
      [DbRow.toRow (Todo.toDbRow t)] := by
    unfold selectById
    rw [hfil]
    rfl
  unfold Todo.get_by_id
  rw [hsel]
  exact tryFrom_toRow t

/-- Witness for C4 at a concrete task and the empty table. -/
theorem C4_save_get_round_trip_witness :
    Todo.get_by_id
        (Todo.save ⟨1, "draft", .High, 0, none, none⟩ []).1 1 =
      .ok ⟨1, "draft", .High, 0, none, none⟩ :=
  C4_save_get_round_trip ⟨1, "draft", .High, 0, none, none⟩ [] (by simp [IdUnique])

/-- C5: from an absent completion timestamp, one toggle makes it present
at the supplied now instant, a second returns it to absent, and the
identifier and creation timestamp are unchanged across both toggles.
Todo::toggle_complete is a pure in-memory function of the entity and the
clock reading: it touches no table state. -/
theorem C5_toggle_symmetry (t : Todo) (n1 n2 : Int)
    (h : t.completed_at = none) :
    (t.toggle_complete n1).completed_at = some n1 ∧
    ((t.toggle_complete n1).toggle_complete n2).completed_at = none ∧
    (t.toggle_complete n1).id = t.id ∧
    ((t.toggle_complete n1).toggle_complete n2).id = t.id ∧
    (t.toggle_complete n1).created_at = t.created_at ∧
    ((t.toggle_complete n1).toggle_complete n2).created_at = t.created_at := by
  have h1 : t.toggle_complete n1 = { t with completed_at := some n1 } := by
    unfold Todo.toggle_complete
    rw [h]
  have h2 : ({ t with completed_at := some n1 } : Todo).toggle_complete n2 =
      { t with completed_at := none } := rfl
  rw [h1, h2]
  exact ⟨rfl, rfl, rfl, rfl, rfl, rfl⟩

/-- Witness for C5 at a concrete freshly constructed task. -/
theorem C5_toggle_symmetry_witness :
    (Todo.toggle_complete ⟨3, "c", .Low, 4, none, none⟩ 5).completed_at = some 5 ∧
    ((Todo.toggle_complete ⟨3, "c", .Low, 4, none, none⟩ 5).toggle_complete 7).completed_at = none ∧
    (Todo.toggle_complete ⟨3, "c", .Low, 4, none, none⟩ 5).id = 3 ∧
    ((Todo.toggle_complete ⟨3, "c", .Low, 4, none, none⟩ 5).toggle_complete 7).id = 3 ∧
    (Todo.toggle_complete ⟨3, "c", .Low, 4, none, none⟩ 5).created_at = 4 ∧
    ((Todo.toggle_complete ⟨3, "c", .Low, 4, none, none⟩ 5).toggle_complete 7).created_at = 4 :=
  C5_toggle_symmetry ⟨3, "c", .Low, 4, none, none⟩ 5 7 rfl

/-- C6: Todo::delete succeeds on any table, including one with no row at
the identifier; afterwards get_by_id fails with the zero-row count error,
no remaining row carries the identifier, and a subsequent save re-creates
the durable row. -/
theorem C6_delete_semantics (t : Todo) (table : List DbRow) :
    (Todo.delete t table).2 = .ok t ∧
    Todo.get_by_id (Todo.delete t table).1 t.id =
      .error (.PostgresError (.rowCount 0)) ∧
    (∀ r ∈ (Todo.delete t table).1, ¬ r.id = t.id) ∧
    (Todo.save t (Todo.delete t table).1).1 =
      (Todo.delete t table).1 ++ [Todo.toDbRow t] := by
  have hno : ∀ x ∈ (Todo.delete t table).1, ¬ x.id = t.id := by
    intro x hx
    have hmem := (List.mem_filter.mp hx).2
    simpa using hmem
  refine ⟨rfl, ?_, hno, ?_⟩
  · have hsel : selectById (Todo.delete t table).1 t.id = [] := by
      unfold selectById Todo.delete
      rw [filter_of_delete]
      rfl
    unfold Todo.get_by_id
    rw [hsel]
    rfl
  · exact upsert_of_not_mem hno

/-- C7: saving the same unmutated task twice leaves the table of the
first save unchanged and the table still holds exactly one row carrying
the identifier. -/
theorem C7_save_idempotent (t : Todo) (table : List DbRow)
    (h : IdUnique table) :
    (Todo.save t (Todo.save t table).1).1 = (Todo.save t table).1 ∧
    (Todo.save t (Todo.save t table).1).1.countP (fun r => r.id == t.id) = 1 := by
  have hidem : upsert (upsert table t.toDbRow) t.toDbRow =
      upsert table t.toDbRow :=
    upsert_eq_self (fun x hx hid => eq_of_mem_upsert hx hid)
      (upsert_mem_exists table t.toDbRow)
  refine ⟨hidem, ?_⟩
  show (upsert (upsert table t.toDbRow) t.toDbRow).countP
      (fun r => r.id == t.id) = 1
  rw [hidem, List.countP_eq_length_filter]
  have hfil : (upsert table t.toDbRow).filter (fun r => r.id == t.id) =
      [Todo.toDbRow t] :=
    filter_upsert_self t.toDbRow table h
  rw [hfil]
  rfl

/-- Witness for C7 at a concrete task and the empty table. -/
theorem C7_save_idempotent_witness :
    (Todo.save ⟨2, "b", .Medium, 1, none, none⟩
        (Todo.save ⟨2, "b", .Medium, 1, none, none⟩ []).1).1 =
      (Todo.save ⟨2, "b", .Medium, 1, none, none⟩ []).1 ∧
    (Todo.save ⟨2, "b", .Medium, 1, none, none⟩
        (Todo.save ⟨2, "b", .Medium, 1, none, none⟩ []).1).1.countP
        (fun r => r.id == 2) = 1 :=
  C7_save_idempotent ⟨2, "b", .Medium, 1, none, none⟩ [] (by simp [IdUnique])

/-- C8 (amended): when the connection parameters fail to parse,
DBManager::new panics through the expect on new_from_stringlike rather
than returning an error; only when the parameters parse and the pool
build then fails does it return the pool-construction failure as a
recoverable PostgresError value. -/
theorem C8_new_error_paths (config : DBOptions) :
    DBManager.new config false true = .panicked expectMsg ∧
    DBManager.new config false false = .panicked expectMsg ∧
    DBManager.new config true false = .err (.PostgresError .poolBuild) ∧
    DBManager.new config true true = .ok ⟨0⟩ :=
  ⟨rfl, rfl, rfl, rfl⟩

/-- Counterexample to C8 as stated: a configuration whose connection
parameters the driver rejects makes DBManager::new panic, not return the
pool-construction error as a recoverable value. -/
theorem C8_new_counterexample :
    DBManager.new ⟨"this is not a postgres url", 8⟩ false true =
      .panicked expectMsg ∧
    DBManager.new ⟨"this is not a postgres url", 8⟩ false true ≠
      .err (.PostgresError .poolBuild) :=
  ⟨rfl, by decide⟩

/-- C9: reading the DBManager instance from the uninitialized once cell
panics and never yields an ok or err value; after a completed
initialization every read returns the installed instance. -/
theorem C9_get_instance_contract (m : DBManager) :
    DBManager.get none = .panicked unwrapNoneMsg ∧
    (∀ x : DBManager, DBManager.get none ≠ .ok x) ∧
    (∀ e : Error, DBManager.get none ≠ .err e) ∧
    DBManager.get (some m) = .ok m := by
  refine ⟨rfl, fun x h => ?_, fun e h => ?_, rfl⟩
  · exact Outcome.noConfusion h
  · exact Outcome.noConfusion h

/-- C10: Todo::save and Todo::delete return Ok carrying the very entity
value they were given, every in-memory field included; in this pure
embedding of the shared-reference signatures, neither operation can
alter the entity. -/
theorem C10_save_delete_frame (t : Todo) (table : List DbRow) :
    (Todo.save t table).2 = .ok t ∧ (Todo.delete t table).2 = .ok t :=
  ⟨rfl, rfl⟩

end TodoApp
